import Mathlib

set_option maxHeartbeats 1000000

/- Shallow embedding of `dependencies.py`: functionality to check for the
availability and version of Python module dependencies.  Pure functions model
the Python code; printed lines are collected in a returned list, and uncaught
Python exceptions are modelled by the `Except` error case. -/

/-- Runtime Python values relevant to the dependency checks: `None`, strings,
zero-argument callables (modelled by the value they return when called) and
module objects (modelled by their attribute table). -/
inductive PyVal : Type where
  | vnone : PyVal
  | vstr : String → PyVal
  | vfun : PyVal → PyVal
  | vmod : List (String × PyVal) → PyVal

/-- Uncaught Python exceptions that the modelled code can raise: `ValueError`
from `int()` on a malformed token, `TypeError` from calling a non-callable or
passing a non-string to `re.split`, and any exception other than `ImportError`
raised while importing a module. -/
inductive PyExc : Type where
  | valueError : String → PyExc
  | typeError : PyExc
  | otherException : PyExc
  deriving DecidableEq

/-- Python truthiness of the modelled values: `None` and the empty string are
falsy; nonempty strings, functions and modules are truthy. -/
def pyTruthy : PyVal → Bool
  | .vnone => false
  | .vstr s => s != ""
  | .vfun _ => true
  | .vmod _ => true

/-- Coercion of a value to its string form, as done by the format conversion
of the value into the message string.  The textual representation of
functions and modules is irrelevant to the checks, so a fixed placeholder is
used. -/
def pyStr : PyVal → String
  | .vnone => "None"
  | .vstr s => s
  | .vfun _ => "<callable>"
  | .vmod _ => "<module>"

/-- Python `getattr(obj, name, None)`: look the name up in a module's
attribute table; on any other value (or a missing attribute) the `None`
default is returned.  (Attributes of non-module built-in values are never
relevant to the dependency checks.) -/
def pyGetattr : PyVal → String → PyVal
  | .vmod attrs, name => (attrs.lookup name).getD .vnone
  | _, _ => .vnone

/-- Calling a value with zero arguments: callables return their result, any
other value raises `TypeError`. -/
def pyCall : PyVal → Except PyExc PyVal
  | .vfun r => .ok r
  | _ => .error .typeError

/-- `re.split` demands a string argument; a truthy non-string value raises
`TypeError`. -/
def pyAsString : PyVal → Except PyExc String
  | .vstr s => .ok s
  | _ => .error .typeError

/-- Python truthiness of an optional string argument (`None` and `''` are
falsy). -/
def optTruthy : Option String → Bool
  | none => false
  | some s => s != ""

/-- Splitting a character list at every separator character, keeping empty
pieces: the semantics of `re.split` (and of `str.split` for a single-character
separator), stated by structural recursion. -/
def splitTokens (p : Char → Bool) : List Char → List (List Char)
  | [] => [[]]
  | c :: rest =>
    if p c then [] :: splitTokens p rest
    else
      match splitTokens p rest with
      | [] => [[c]]
      | t :: ts => (c :: t) :: ts

/-- Leading and trailing whitespace removal, as `int()` applies to its
argument. -/
def trimWs (cs : List Char) : List Char :=
  ((cs.dropWhile Char.isWhitespace).reverse.dropWhile Char.isWhitespace).reverse

/-- Valid tail of an integer token: digits, with single underscores allowed
between digits. -/
def intTailOk : List Char → Bool
  | [] => true
  | '_' :: c :: rest => c.isDigit && intTailOk (c :: rest)
  | '_' :: [] => false
  | c :: rest => c.isDigit && intTailOk rest

/-- Valid integer token body: nonempty, starting with a digit. -/
def intTokenOk : List Char → Bool
  | [] => false
  | c :: rest => c.isDigit && intTailOk (c :: rest)

/-- Numeric value of a digit sequence (underscores ignored). -/
def digitsValue (cs : List Char) : Int :=
  ((cs.filter Char.isDigit).foldl (fun a c => 10 * a + (c.toNat - 48)) 0 : Nat)

/-- Python `int(s)` on a string: optional surrounding whitespace, optional
sign, then digits with optional single underscores between digits; `none`
models the `ValueError` raised on any other input. -/
def pyIntOfString (s : String) : Option Int :=
  match trimWs s.toList with
  | '+' :: rest => if intTokenOk rest then some (digitsValue rest) else none
  | '-' :: rest => if intTokenOk rest then some (-(digitsValue rest)) else none
  | rest => if intTokenOk rest then some (digitsValue rest) else none

/-- `int(s)` as an exception-propagating computation. -/
def pyIntE (s : String) : Except PyExc Int :=
  match pyIntOfString s with
  | some n => .ok n
  | none => .error (.valueError s)

/-- The version split: `re.split` on the pattern matching `.` or `-`, which
splits the string at every occurrence of either character, keeping empty
pieces. -/
def splitVersion (s : String) : List String :=
  (splitTokens (fun c => c == '.' || c == '-') s.toList).map String.mk

/-- Split a version string and convert every piece into an integer, as in
`list(map(int, _VERSION_SPLIT_REGEX.split(version)))`; the first malformed
token raises `ValueError`. -/
def parseVersionList (s : String) : Except PyExc (List Int) :=
  (splitVersion s).mapM pyIntE

/-- Python `<` on lists of integers: lexicographic, element by element, with
a proper prefix comparing smaller. -/
def pyListLt : List Int → List Int → Bool
  | [], [] => false
  | [], _ :: _ => true
  | _ :: _, [] => false
  | a :: as, b :: bs => if a < b then true else if b < a then false else pyListLt as bs

/-- Python `>` on lists of integers. -/
def pyListGt (a b : List Int) : Bool :=
  pyListLt b a

/-- Outcome of `__import__(name)` for a given environment: the top-level
module object (for a dotted name, importing `a.b.c` returns module `a`), or
an `ImportError` (the only exception the code catches), or some other
exception raised while loading the module. -/
inductive ImportResult : Type where
  | found : List (String × PyVal) → ImportResult
  | importError : ImportResult
  | otherException : ImportResult

/-- The environment of installed modules: what `__import__` does on each
module name. -/
structure Env : Type where
  topImport : String → ImportResult

/-- `module_name.split('.')`: the dot-separated components of a module
name. -/
def moduleNameParts (module_name : String) : List String :=
  (splitTokens (fun c => c == '.') module_name.toList).map String.mk

/-- `_ImportPythonModule(module_name)`: call `__import__`, returning `None`
on `ImportError`; then, if the name contains dots, walk the chain of
attribute lookups from the top-level module object.  Exceptions other than
`ImportError` are not caught. -/
def importPythonModule (env : Env) (module_name : String) : Except PyExc PyVal :=
  match env.topImport module_name with
  | .importError => .ok .vnone
  | .otherException => .error .otherException
  | .found attrs =>
    let module_object := PyVal.vmod attrs
    if module_name.toList.contains '.' then
      .ok ((moduleNameParts module_name).drop 1 |>.foldl pyGetattr module_object)
    else
      .ok module_object

/-- Message: optional module missing. -/
def optionalMissingLine (module_name : String) : String :=
  "[OPTIONAL]\t" ++ ("missing: " ++ (module_name ++ "."))

/-- Message: required module missing. -/
def failureMissingLine (module_name : String) : String :=
  "[FAILURE]\t" ++ ("missing: " ++ (module_name ++ "."))

/-- Message: presence-only success. -/
def okPresenceLine (module_name : String) : String :=
  "[OK]\t\t" ++ module_name

/-- Message: version information could not be determined. -/
def undeterminedVersionLine (module_name : String) : String :=
  "[FAILURE]\t" ++ ("unable to determine version information for: " ++ module_name)

/-- Message: module version below the minimum. -/
def tooOldLine (module_name module_version minimum_version : String) : String :=
  "[FAILURE]\t" ++ (module_name ++ " version: " ++ module_version ++
    " is too old, " ++ minimum_version ++ " or later required.")

/-- Message: module version above the maximum. -/
def tooNewLine (module_name module_version maximum_version : String) : String :=
  "[FAILURE]\t" ++ (module_name ++ " version: " ++ module_version ++
    " is too recent, " ++ maximum_version ++ " or earlier required.")

/-- Message: success with a version. -/
def okVersionLine (module_name module_version : String) : String :=
  "[OK]\t\t" ++ (module_name ++ " version: " ++ module_version)

/-- Does the accessor name end with the two-character call marker `()`? -/
def endsWithCallMarker (s : String) : Bool :=
  match s.toList.reverse with
  | ')' :: '(' :: _ => true
  | _ => false

/-- The accessor name with its final two characters removed, as in
`version_attribute_name[:-2]`. -/
def dropCallMarker (s : String) : String :=
  String.mk ((s.toList.reverse.drop 2).reverse)

/-- The version-retrieval step of `_CheckPythonModule` (lines 57-63): a name
ending in `()` designates a zero-argument method, called if truthy;
otherwise a plain attribute read with default `None`. -/
def extractModuleVersion (module_object : PyVal) (version_attribute_name : String) :
    Except PyExc PyVal :=
  if !(endsWithCallMarker version_attribute_name) then
    .ok (pyGetattr module_object version_attribute_name)
  else
    let version_method := pyGetattr module_object (dropCallMarker version_attribute_name)
    if pyTruthy version_method then
      pyCall version_method
    else
      .ok .vnone

/-- `_CheckPythonModule`: checks the availability of a Python module, and
that its reported version lies within the declared bounds.  Returns the
boolean result together with the printed lines; `Except.error` models an
uncaught exception. -/
def checkPythonModule (env : Env) (module_name : String)
    (version_attribute_name minimum_version : Option String)
    (is_required : Bool) (maximum_version : Option String)
    (verbose_output : Bool) : Except PyExc (Bool × List String) :=
  Except.bind (importPythonModule env module_name) fun module_object =>
  if !pyTruthy module_object then
    (if !is_required then
      Except.ok (true, [optionalMissingLine module_name])
    else
      Except.ok (false, [failureMissingLine module_name]))
  else if !optTruthy version_attribute_name || !optTruthy minimum_version then
    Except.ok (true, if verbose_output then [okPresenceLine module_name] else [])
  else
  Except.bind (extractModuleVersion module_object (version_attribute_name.getD ""))
    fun module_version =>
  if !pyTruthy module_version then
    Except.ok (false, [undeterminedVersionLine module_name])
  else
  let module_version_str := pyStr module_version
  Except.bind (parseVersionList module_version_str) fun module_version_map =>
  Except.bind (parseVersionList (minimum_version.getD "")) fun minimum_version_map =>
  if pyListLt module_version_map minimum_version_map then
    Except.ok (false, [tooOldLine module_name module_version_str (minimum_version.getD "")])
  else if optTruthy maximum_version then
    Except.bind (parseVersionList (maximum_version.getD "")) fun maximum_version_map =>
      (if pyListGt module_version_map maximum_version_map then
        Except.ok (false,
          [tooNewLine module_name module_version_str (maximum_version.getD "")])
      else if verbose_output then
        Except.ok (true, [okVersionLine module_name module_version_str])
      else
        Except.ok (true, []))
  else if verbose_output then
    Except.ok (true, [okVersionLine module_name module_version_str])
  else
    Except.ok (true, [])

/-- `_CheckSQLite3`: checks the availability of sqlite3, trying
`pysqlite2.dbapi2` first and falling back to `sqlite3`, against the fixed
minimum version `3.7.8`. -/
def checkSQLite3 (env : Env) (verbose_output : Bool) : Except PyExc (Bool × List String) :=
  Except.bind (importPythonModule env "pysqlite2.dbapi2") fun module_object0 =>
  let module_name := if !pyTruthy module_object0 then "sqlite3" else "pysqlite2.dbapi2"
  Except.bind (importPythonModule env module_name) fun module_object =>
  if !pyTruthy module_object then
    Except.ok (false, [failureMissingLine module_name])
  else
  let module_version := pyGetattr module_object "sqlite_version"
  if !pyTruthy module_version then
    Except.ok (false, [])
  else
  Except.bind (pyAsString module_version) fun module_version_str =>
  Except.bind (parseVersionList module_version_str) fun module_version_map =>
  Except.bind (parseVersionList "3.7.8") fun minimum_version_map =>
  if pyListLt module_version_map minimum_version_map then
    Except.ok (false, [tooOldLine module_name module_version_str "3.7.8"])
  else if verbose_output then
    Except.ok (true, [okVersionLine module_name module_version_str])
  else
    Except.ok (true, [])

/-- One entry of the `PYTHON_DEPENDENCIES` table: `(version_attribute_name,
minimum_version, maximum_version, is_required)`, with `None` modelled by
`Option`. -/
structure VersionTuple : Type where
  version_attribute_name : Option String
  minimum_version : Option String
  maximum_version : Option String
  is_required : Bool

/-- Stable insertion of a dependency entry into a list sorted by module
name. -/
def insertByName (p : String × VersionTuple) :
    List (String × VersionTuple) → List (String × VersionTuple)
  | [] => [p]
  | q :: qs => if p.1 ≤ q.1 then p :: q :: qs else q :: insertByName p qs

/-- `sorted(PYTHON_DEPENDENCIES.items())`: the dependency entries sorted by
module name (module names are unique dictionary keys, so the key decides). -/
def sortByName : List (String × VersionTuple) → List (String × VersionTuple)
  | [] => []
  | p :: ps => insertByName p (sortByName ps)

/-- The per-requirement loop of `CheckDependencies`: run `_CheckPythonModule`
on every entry, conjoining the boolean results (the loop never exits early;
the accumulator starts true and is set to false on every failed check) and
concatenating the printed lines.  An uncaught exception aborts the run. -/
def runChecks (env : Env) (verbose_output : Bool) :
    List (String × VersionTuple) → Except PyExc (Bool × List String)
  | [] => .ok (true, [])
  | (module_name, vt) :: rest =>
    Except.bind (checkPythonModule env module_name vt.version_attribute_name
        vt.minimum_version vt.is_required vt.maximum_version verbose_output) fun res =>
    Except.bind (runChecks env verbose_output rest) fun restRes =>
    .ok (res.1 && restRes.1, res.2 ++ restRes.2)

/-- The lines printed after all checks: the compact `[OK]` summary when
everything passed and output is not verbose, then the final blank line. -/
def tailLines (check_result : Bool) (verbose_output : Bool) : List String :=
  (if check_result && !verbose_output then ["[OK]"] else []) ++ [""]

/-- `CheckDependencies`: checks the availability of the dependencies, in
order sorted by module name, then checks sqlite3 once, and folds all results
into one boolean. -/
def checkDependencies (env : Env) (pythonDependencies : List (String × VersionTuple))
    (verbose_output : Bool) : Except PyExc (Bool × List String) :=
  Except.bind (runChecks env verbose_output (sortByName pythonDependencies)) fun depsRes =>
  Except.bind (checkSQLite3 env verbose_output) fun sqliteRes =>
  Except.ok (depsRes.1 && sqliteRes.1,
    "Checking availability and versions of dependencies."
      :: (depsRes.2 ++ sqliteRes.2 ++ tailLines (depsRes.1 && sqliteRes.1) verbose_output))

/- Concrete environments used to evaluate the theorems on explicit inputs. -/

/-- An environment in which no module is installed: every import raises
`ImportError`. -/
def envAbsent : Env := ⟨fun _ => ImportResult.importError⟩

/-- An environment providing only a module `widget` whose `__version__`
attribute is the given string. -/
def envWidget (v : String) : Env :=
  ⟨fun name =>
    if name = "widget" then ImportResult.found [("__version__", PyVal.vstr v)]
    else ImportResult.importError⟩

/- Lemmas about the Python list order. -/

/-- `pyListLt` is irreflexive. -/
theorem pyListLt_irrefl (a : List Int) : pyListLt a a = false := by
  induction a with
  | nil => rfl
  | cons x xs ih => simp [pyListLt, lt_irrefl, ih]

/-- Python list comparison agrees with the standard lexicographic order on
integer sequences. -/
theorem pyListLt_iff_lex : ∀ (a b : List Int), pyListLt a b = true ↔ List.Lex (· < ·) a b
  | [], [] => by
      constructor
      · intro h; simp [pyListLt] at h
      · intro h; cases h
  | [], b :: bs => by
      constructor
      · intro _; exact List.Lex.nil
      · intro _; rfl
  | a :: as, [] => by
      constructor
      · intro h; simp [pyListLt] at h
      · intro h; cases h
  | a :: as, b :: bs => by
      constructor
      · intro h
        simp only [pyListLt] at h
        by_cases hab : a < b
        · exact List.Lex.rel hab
        · by_cases hba : b < a
          · simp [hab, hba] at h
          · have hab2 : a = b := le_antisymm (not_lt.mp hba) (not_lt.mp hab)
            subst hab2
            simp [hab, hba] at h
            exact List.Lex.cons ((pyListLt_iff_lex as bs).mp h)
      · intro h
        cases h with
        | rel hr => simp [pyListLt, hr]
        | cons ht =>
            simp [pyListLt, lt_irrefl]
            exact (pyListLt_iff_lex as bs).mpr ht

/-- A list compares strictly below any proper extension of itself. -/
theorem pyListLt_append (l : List Int) (c : Int) (t : List Int) :
    pyListLt l (l ++ c :: t) = true := by
  induction l with
  | nil => rfl
  | cons a as ih => simp [pyListLt, lt_irrefl, ih]

/-- Claim C1: for every requirement whose module cannot be loaded (the probe
yields a falsy object), the check returns true with the `[OPTIONAL] missing`
message when the module is not required, and false with the `[FAILURE]
missing` message when it is required. -/
theorem claim1_optional_missing (env : Env) (module_name : String)
    (version_attribute_name minimum_version maximum_version : Option String)
    (verbose_output : Bool) (mo : PyVal)
    (hmo : importPythonModule env module_name = .ok mo)
    (habsent : pyTruthy mo = false) :
    checkPythonModule env module_name version_attribute_name minimum_version false
        maximum_version verbose_output = .ok (true, [optionalMissingLine module_name])
  ∧ checkPythonModule env module_name version_attribute_name minimum_version true
        maximum_version verbose_output = .ok (false, [failureMissingLine module_name]) := by
  unfold checkPythonModule
  rw [hmo]
  constructor <;> simp [Except.bind, habsent]

/-- Witness for C1 at a concrete absent module. -/
theorem claim1_witness :
    checkPythonModule envAbsent "widget" (some "__version__") (some "1.2.0") false none true
        = .ok (true, [optionalMissingLine "widget"])
  ∧ checkPythonModule envAbsent "widget" (some "__version__") (some "1.2.0") true none true
        = .ok (false, [failureMissingLine "widget"]) :=
  claim1_optional_missing envAbsent "widget" (some "__version__") (some "1.2.0") none true
    PyVal.vnone rfl rfl

/-- Claim C2: for version strings whose tokens all parse, the parsed vectors
compare by Python list comparison exactly as by standard numeric-tuple
lexicographic order; a proper prefix compares smaller; and
`Parse "3.7.8" < Parse "3.10.0"` numerically. -/
theorem claim2_parse_order :
    (∀ (A B : String) (va vb : List Int),
        parseVersionList A = .ok va → parseVersionList B = .ok vb →
        (pyListLt va vb = true ↔ List.Lex (· < ·) va vb))
  ∧ (∀ (A B : String) (va vb : List Int),
        parseVersionList A = .ok va → parseVersionList B = .ok vb →
        va <+: vb → va ≠ vb → pyListLt va vb = true)
  ∧ (∃ va vb, parseVersionList "3.7.8" = .ok va ∧ parseVersionList "3.10.0" = .ok vb ∧
        pyListLt va vb = true) := by
  refine ⟨fun A B va vb _ _ => pyListLt_iff_lex va vb,
    fun A B va vb _ _ hpre hne => ?_,
    ⟨[3, 7, 8], [3, 10, 0], rfl, rfl, rfl⟩⟩
  obtain ⟨t, rfl⟩ := hpre
  cases t with
  | nil => simp at hne
  | cons c t => exact pyListLt_append va c t

/-- Witness for C2 at the concrete version strings of the claim. -/
theorem claim2_witness :
    (pyListLt [3, 7, 8] [3, 10, 0] = true ↔
      List.Lex (· < ·) ([3, 7, 8] : List Int) [3, 10, 0])
  ∧ pyListLt [3, 7] [3, 7, 8] = true :=
  ⟨claim2_parse_order.1 "3.7.8" "3.10.0" [3, 7, 8] [3, 10, 0] rfl rfl,
   claim2_parse_order.2.1 "3.7" "3.7.8" [3, 7] [3, 7, 8] rfl rfl ⟨[8], rfl⟩ (by decide)⟩

/- Characterization lemmas for the stages of `checkPythonModule`. -/

@[simp]
theorem pyTruthy_vstr (s : String) : pyTruthy (.vstr s) = (s != "") := rfl

@[simp]
theorem pyStr_vstr (s : String) : pyStr (.vstr s) = s := rfl

@[simp]
theorem optTruthy_some (s : String) : optTruthy (some s) = (s != "") := rfl

@[simp]
theorem optTruthy_none : optTruthy none = false := rfl

/-- If the probed module object is falsy, the check resolves by the
required/optional policy. -/
theorem checkPythonModule_missing (env : Env) (module_name : String)
    (version_attribute_name minimum_version maximum_version : Option String)
    (is_required verbose_output : Bool) (mo : PyVal)
    (hmo : importPythonModule env module_name = .ok mo)
    (habsent : pyTruthy mo = false) :
    checkPythonModule env module_name version_attribute_name minimum_version is_required
        maximum_version verbose_output =
      (if is_required then Except.ok (false, [failureMissingLine module_name])
       else Except.ok (true, [optionalMissingLine module_name])) := by
  unfold checkPythonModule
  rw [hmo]
  cases is_required <;> simp [Except.bind, habsent]

/-- If the module is present and the extracted version value is falsy, the
check fails with the undetermined-version message. -/
theorem checkPythonModule_undetermined (env : Env) (module_name a mins : String)
    (maximum_version : Option String) (is_required verbose_output : Bool)
    (mo v : PyVal)
    (hmo : importPythonModule env module_name = .ok mo)
    (hmot : pyTruthy mo = true)
    (ha : a ≠ "") (hmins : mins ≠ "")
    (hex : extractModuleVersion mo a = .ok v)
    (hvf : pyTruthy v = false) :
    checkPythonModule env module_name (some a) (some mins) is_required
        maximum_version verbose_output =
      Except.ok (false, [undeterminedVersionLine module_name]) := by
  unfold checkPythonModule
  rw [hmo]
  simp [Except.bind, hmot, optTruthy, ha, hmins, hex, hvf]

/-- If the module is present and a truthy version string is extracted, the
check reduces to parsing both version strings and comparing the resulting
vectors. -/
theorem checkPythonModule_version_stage (env : Env) (module_name a mins : String)
    (maximum_version : Option String) (is_required verbose_output : Bool)
    (mo : PyVal) (mv : String)
    (hmo : importPythonModule env module_name = .ok mo)
    (hmot : pyTruthy mo = true)
    (ha : a ≠ "") (hmins : mins ≠ "")
    (hex : extractModuleVersion mo a = .ok (.vstr mv))
    (hmvt : mv ≠ "") :
    checkPythonModule env module_name (some a) (some mins) is_required
        maximum_version verbose_output =
      Except.bind (parseVersionList mv) (fun module_version_map =>
      Except.bind (parseVersionList mins) (fun minimum_version_map =>
      if pyListLt module_version_map minimum_version_map then
        Except.ok (false, [tooOldLine module_name mv mins])
      else if optTruthy maximum_version then
        Except.bind (parseVersionList (maximum_version.getD "")) (fun maximum_version_map =>
          if pyListGt module_version_map maximum_version_map then
            Except.ok (false, [tooNewLine module_name mv (maximum_version.getD "")])
          else if verbose_output then
            Except.ok (true, [okVersionLine module_name mv])
          else
            Except.ok (true, []))
      else if verbose_output then
        Except.ok (true, [okVersionLine module_name mv])
      else
        Except.ok (true, []))) := by
  unfold checkPythonModule
  rw [hmo]
  simp [Except.bind, hmot, ha, hmins, hex, hmvt]

/-- Claim C3 counterexample: with requirement minimum `2.0` and maximum
`1.0`, a present module reporting exactly the minimum version `2.0` does not
succeed — the claim as stated fails at this concrete input (the failure is a
too-recent failure against the smaller declared maximum). -/
theorem claim3_counterexample :
    checkPythonModule (envWidget "2.0") "widget" (some "__version__") (some "2.0") true
        (some "1.0") true = .ok (false, [tooNewLine "widget" "2.0" "1.0"]) := rfl

/-- Claim C3 (amended): for every present module with a well-formed extracted
truthy version string, the check fails as too old exactly on strict
`extracted < minimum` and as too new exactly on non-old strict
`extracted > maximum`; consequently the bounds are inclusive: a version equal
to the minimum succeeds when no maximum is declared, and a version equal to a
declared maximum succeeds when the declared minimum does not exceed that
maximum. -/
theorem claim3_boundaries (env : Env) (module_name a mins : String)
    (maximum_version : Option String) (is_required verbose_output : Bool)
    (mo : PyVal) (mv : String) (mvm minm : List Int)
    (hmo : importPythonModule env module_name = .ok mo)
    (hmot : pyTruthy mo = true)
    (ha : a ≠ "") (hmins : mins ≠ "")
    (hex : extractModuleVersion mo a = .ok (.vstr mv))
    (hmvt : mv ≠ "")
    (hmvp : parseVersionList mv = .ok mvm)
    (hminp : parseVersionList mins = .ok minm) :
    (optTruthy maximum_version = false →
      checkPythonModule env module_name (some a) (some mins) is_required maximum_version
          verbose_output =
        (if pyListLt mvm minm then Except.ok (false, [tooOldLine module_name mv mins])
         else Except.ok
           (true, if verbose_output then [okVersionLine module_name mv] else [])))
  ∧ (∀ maxs maxm, maximum_version = some maxs → maxs ≠ "" →
      parseVersionList maxs = .ok maxm →
      checkPythonModule env module_name (some a) (some mins) is_required maximum_version
          verbose_output =
        (if pyListLt mvm minm then Except.ok (false, [tooOldLine module_name mv mins])
         else if pyListLt maxm mvm then Except.ok (false, [tooNewLine module_name mv maxs])
         else Except.ok
           (true, if verbose_output then [okVersionLine module_name mv] else [])))
  ∧ (mv = mins → optTruthy maximum_version = false →
      checkPythonModule env module_name (some a) (some mins) is_required maximum_version
          verbose_output =
        Except.ok (true, if verbose_output then [okVersionLine module_name mv] else []))
  ∧ (∀ maxs maxm, maximum_version = some maxs → maxs ≠ "" →
      parseVersionList maxs = .ok maxm → mv = maxs → pyListLt maxm minm = false →
      checkPythonModule env module_name (some a) (some mins) is_required maximum_version
          verbose_output =
        Except.ok (true, if verbose_output then [okVersionLine module_name mv] else [])) := by
  have key := checkPythonModule_version_stage env module_name a mins maximum_version
    is_required verbose_output mo mv hmo hmot ha hmins hex hmvt
  refine ⟨?_, ?_, ?_, ?_⟩
  · intro hmax
    rw [key, hmvp, hminp]
    simp only [Except.bind, hmax]
    cases hlt : pyListLt mvm minm <;> cases verbose_output <;> simp
  · intro maxs maxm hmaxeq hmaxne hmaxp
    subst hmaxeq
    rw [key, hmvp, hminp]
    simp only [Except.bind, optTruthy_some, Option.getD_some, hmaxp, pyListGt,
      bne_iff_ne, ne_eq, hmaxne, not_false_eq_true, if_true]
    cases hlt : pyListLt mvm minm <;> cases hgt : pyListLt maxm mvm <;>
      cases verbose_output <;> simp [hmaxne]
  · intro heq hmax
    subst heq
    have hsame : mvm = minm := by
      rw [hmvp] at hminp
      exact (Except.ok.injEq _ _).mp hminp
    subst hsame
    rw [key, hmvp]
    simp only [Except.bind, hmax, pyListLt_irrefl]
    cases verbose_output <;> simp
  · intro maxs maxm hmaxeq hmaxne hmaxp heq hminmax
    subst hmaxeq
    subst heq
    have hsame : mvm = maxm := by
      rw [hmvp] at hmaxp
      exact (Except.ok.injEq _ _).mp hmaxp
    subst hsame
    rw [key, hmvp, hminp]
    simp only [Except.bind, optTruthy_some, Option.getD_some, hmvp, pyListGt,
      hminmax, pyListLt_irrefl, bne_iff_ne, ne_eq, hmaxne, not_false_eq_true, if_true,
      Bool.false_eq_true, if_false]
    cases verbose_output <;> simp

/-- Witness for C3 at concrete boundary inputs: version equal to the minimum
with no maximum, and version equal to the declared maximum. -/
theorem claim3_witness :
    checkPythonModule (envWidget "1.2.0") "widget" (some "__version__") (some "1.2.0") true
        none true = .ok (true, [okVersionLine "widget" "1.2.0"])
  ∧ checkPythonModule (envWidget "1.1.0") "widget" (some "__version__") (some "1.0.0") true
        (some "1.1.0") true = .ok (true, [okVersionLine "widget" "1.1.0"]) :=
  ⟨(claim3_boundaries (envWidget "1.2.0") "widget" "__version__" "1.2.0" none true true
      (PyVal.vmod [("__version__", PyVal.vstr "1.2.0")]) "1.2.0" [1, 2, 0] [1, 2, 0]
      rfl rfl (by decide) (by decide) rfl (by decide) rfl rfl).2.2.1 rfl rfl,
   (claim3_boundaries (envWidget "1.1.0") "widget" "__version__" "1.0.0" (some "1.1.0")
      true true (PyVal.vmod [("__version__", PyVal.vstr "1.1.0")]) "1.1.0" [1, 1, 0]
      [1, 0, 0] rfl rfl (by decide) (by decide) rfl (by decide) rfl rfl).2.2.2
      "1.1.0" [1, 1, 0] rfl (by decide) rfl rfl rfl⟩

/-- Claim C4 counterexample: the declared maximum version `abc` has no
parseable integer token, yet the evaluator returns a boolean outcome (the
too-old failure) because the maximum is only parsed after the minimum check
passes. -/
theorem claim4_counterexample :
    checkPythonModule (envWidget "1.0") "widget" (some "__version__") (some "2.0") true
        (some "abc") true = .ok (false, [tooOldLine "widget" "1.0" "2.0"])
  ∧ pyIntOfString "abc" = none := ⟨rfl, rfl⟩

/-- Claim C4 (amended): a version-parse failure propagates uncaught out of the
evaluator whenever the parse is actually reached — the extracted module
version is parsed first, then the declared minimum, and the declared maximum
only when it is truthy and the module version was not below the minimum —
while the module-missing, version-undeterminable, too-old and too-new
conditions are all recovered locally into a boolean outcome. -/
theorem claim4_malformed (env : Env) (module_name a mins : String)
    (maximum_version : Option String) (is_required verbose_output : Bool) :
    (∀ mo mv e, importPythonModule env module_name = .ok mo → pyTruthy mo = true →
      a ≠ "" → mins ≠ "" → extractModuleVersion mo a = .ok (.vstr mv) → mv ≠ "" →
      parseVersionList mv = .error e →
      checkPythonModule env module_name (some a) (some mins) is_required maximum_version
        verbose_output = .error e)
  ∧ (∀ mo mv mvm e, importPythonModule env module_name = .ok mo → pyTruthy mo = true →
      a ≠ "" → mins ≠ "" → extractModuleVersion mo a = .ok (.vstr mv) → mv ≠ "" →
      parseVersionList mv = .ok mvm → parseVersionList mins = .error e →
      checkPythonModule env module_name (some a) (some mins) is_required maximum_version
        verbose_output = .error e)
  ∧ (∀ mo mv mvm minm maxs e, importPythonModule env module_name = .ok mo →
      pyTruthy mo = true →
      a ≠ "" → mins ≠ "" → extractModuleVersion mo a = .ok (.vstr mv) → mv ≠ "" →
      parseVersionList mv = .ok mvm → parseVersionList mins = .ok minm →
      pyListLt mvm minm = false → maximum_version = some maxs → maxs ≠ "" →
      parseVersionList maxs = .error e →
      checkPythonModule env module_name (some a) (some mins) is_required maximum_version
        verbose_output = .error e)
  ∧ (∀ mo, importPythonModule env module_name = .ok mo → pyTruthy mo = false →
      checkPythonModule env module_name (some a) (some mins) is_required maximum_version
          verbose_output =
        (if is_required then Except.ok (false, [failureMissingLine module_name])
         else Except.ok (true, [optionalMissingLine module_name])))
  ∧ (∀ mo v, importPythonModule env module_name = .ok mo → pyTruthy mo = true →
      a ≠ "" → mins ≠ "" → extractModuleVersion mo a = .ok v → pyTruthy v = false →
      checkPythonModule env module_name (some a) (some mins) is_required maximum_version
        verbose_output = .ok (false, [undeterminedVersionLine module_name]))
  ∧ (∀ mo mv mvm minm, importPythonModule env module_name = .ok mo → pyTruthy mo = true →
      a ≠ "" → mins ≠ "" → extractModuleVersion mo a = .ok (.vstr mv) → mv ≠ "" →
      parseVersionList mv = .ok mvm → parseVersionList mins = .ok minm →
      pyListLt mvm minm = true →
      checkPythonModule env module_name (some a) (some mins) is_required maximum_version
        verbose_output = .ok (false, [tooOldLine module_name mv mins]))
  ∧ (∀ mo mv mvm minm maxs maxm, importPythonModule env module_name = .ok mo →
      pyTruthy mo = true →
      a ≠ "" → mins ≠ "" → extractModuleVersion mo a = .ok (.vstr mv) → mv ≠ "" →
      parseVersionList mv = .ok mvm → parseVersionList mins = .ok minm →
      pyListLt mvm minm = false → maximum_version = some maxs → maxs ≠ "" →
      parseVersionList maxs = .ok maxm → pyListLt maxm mvm = true →
      checkPythonModule env module_name (some a) (some mins) is_required maximum_version
        verbose_output = .ok (false, [tooNewLine module_name mv maxs])) := by
  refine ⟨?_, ?_, ?_, ?_, ?_, ?_, ?_⟩
  · intro mo mv e hmo hmot ha hmins hex hmvt herr
    rw [checkPythonModule_version_stage env module_name a mins maximum_version is_required
      verbose_output mo mv hmo hmot ha hmins hex hmvt, herr]
    simp [Except.bind]
  · intro mo mv mvm e hmo hmot ha hmins hex hmvt hok herr
    rw [checkPythonModule_version_stage env module_name a mins maximum_version is_required
      verbose_output mo mv hmo hmot ha hmins hex hmvt, hok, herr]
    simp [Except.bind]
  · intro mo mv mvm minm maxs e hmo hmot ha hmins hex hmvt hok hminok hnlt hmaxeq
      hmaxne hmaxerr
    subst hmaxeq
    rw [checkPythonModule_version_stage env module_name a mins (some maxs) is_required
      verbose_output mo mv hmo hmot ha hmins hex hmvt, hok, hminok]
    simp [Except.bind, hnlt, hmaxne, hmaxerr]
  · intro mo hmo hmof
    exact checkPythonModule_missing env module_name (some a) (some mins) maximum_version
      is_required verbose_output mo hmo hmof
  · intro mo v hmo hmot ha hmins hex hvf
    exact checkPythonModule_undetermined env module_name a mins maximum_version
      is_required verbose_output mo v hmo hmot ha hmins hex hvf
  · intro mo mv mvm minm hmo hmot ha hmins hex hmvt hok hminok hlt
    rw [checkPythonModule_version_stage env module_name a mins maximum_version is_required
      verbose_output mo mv hmo hmot ha hmins hex hmvt, hok, hminok]
    simp [Except.bind, hlt]
  · intro mo mv mvm minm maxs maxm hmo hmot ha hmins hex hmvt hok hminok hnlt hmaxeq
      hmaxne hmaxok hgt
    subst hmaxeq
    rw [checkPythonModule_version_stage env module_name a mins (some maxs) is_required
      verbose_output mo mv hmo hmot ha hmins hex hmvt, hok, hminok]
    simp [Except.bind, hnlt, hmaxne, hmaxok, pyListGt, hgt]

/-- Witness for C4: a module version with a non-integer token aborts the
evaluator with the `ValueError` of the malformed token. -/
theorem claim4_witness :
    checkPythonModule (envWidget "1.0rc1") "widget" (some "__version__") (some "1.2.0") true
        none true = .error (.valueError "0rc1") :=
  (claim4_malformed (envWidget "1.0rc1") "widget" "__version__" "1.2.0" none true true).1
    (PyVal.vmod [("__version__", PyVal.vstr "1.0rc1")]) "1.0rc1" (.valueError "0rc1")
    rfl rfl (by decide) (by decide) rfl (by decide) rfl

/-- An environment in which importing any module raises an exception other
than `ImportError` (for example a module whose top-level initialization code
fails). -/
def envRaises : Env := ⟨fun _ => ImportResult.otherException⟩

/-- An environment providing the package `pysqlite2` without the `dbapi2`
attribute, so the dotted walk breaks at the missing link. -/
def envPkgNoSub : Env :=
  ⟨fun name =>
    if name = "pysqlite2.dbapi2" then ImportResult.found [] else ImportResult.importError⟩

/-- Folding attribute lookups from `None` stays `None`. -/
theorem foldl_pyGetattr_vnone (l : List String) : l.foldl pyGetattr .vnone = .vnone := by
  induction l with
  | nil => rfl
  | cons x xs ih => simpa [pyGetattr] using ih

/-- Claim C5 counterexample: an exception other than `ImportError` raised
while loading a module propagates out of the probe instead of being mapped to
`Absent`. -/
theorem claim5_counterexample :
    importPythonModule envRaises "widget" = .error .otherException := rfl

/-- Claim C5 (amended): the probe maps `ImportError` — the expected
module-not-installed failure — to an absent (`None`) result rather than
propagating it; for a dotted name it loads the top-level module and walks the
named attribute chain, and a missing link anywhere in the chain makes the
final result `None`; only an exception other than `ImportError` raised during
loading propagates to the caller. -/
theorem claim5_probe (env : Env) (module_name : String) :
    (env.topImport module_name = .importError →
      importPythonModule env module_name = .ok .vnone)
  ∧ (∀ attrs, env.topImport module_name = .found attrs →
      module_name.toList.contains '.' = true →
      importPythonModule env module_name =
        .ok (((moduleNameParts module_name).drop 1).foldl pyGetattr (.vmod attrs)))
  ∧ (∀ attrs, env.topImport module_name = .found attrs →
      module_name.toList.contains '.' = false →
      importPythonModule env module_name = .ok (.vmod attrs))
  ∧ (∀ attrs pre sub post, env.topImport module_name = .found attrs →
      module_name.toList.contains '.' = true →
      (moduleNameParts module_name).drop 1 = pre ++ sub :: post →
      pyGetattr (pre.foldl pyGetattr (.vmod attrs)) sub = .vnone →
      importPythonModule env module_name = .ok .vnone)
  ∧ (env.topImport module_name ≠ .otherException →
      ∃ v, importPythonModule env module_name = .ok v) := by
  refine ⟨?_, ?_, ?_, ?_, ?_⟩
  · intro h
    simp [importPythonModule, h]
  · intro attrs h hdot
    have hdot2 : '.' ∈ module_name.data := by simpa using hdot
    simp [importPythonModule, h, hdot2]
  · intro attrs h hdot
    have hdot2 : '.' ∉ module_name.data := by simpa using hdot
    simp [importPythonModule, h, hdot2]
  · intro attrs pre sub post h hdot hchain hmiss
    have hdot2 : '.' ∈ module_name.data := by simpa using hdot
    simp only [importPythonModule, h]
    rw [if_pos (by simpa using hdot2), hchain, List.foldl_append]
    simp only [List.foldl_cons, hmiss, foldl_pyGetattr_vnone]
  · intro h
    cases himp : env.topImport module_name with
    | importError => exact ⟨.vnone, by simp [importPythonModule, himp]⟩
    | otherException => exact absurd himp h
    | found attrs =>
      by_cases hdot2 : '.' ∈ module_name.data
      · exact ⟨List.foldl pyGetattr (PyVal.vmod attrs) (moduleNameParts module_name).tail,
          by simp [importPythonModule, himp, hdot2]⟩
      · exact ⟨PyVal.vmod attrs, by simp [importPythonModule, himp, hdot2]⟩

/-- Witness for C5: the absent module maps to `None`, and the dotted name
`pysqlite2.dbapi2` with a broken attribute chain also yields `None`. -/
theorem claim5_witness :
    importPythonModule envAbsent "widget" = .ok .vnone
  ∧ importPythonModule envPkgNoSub "pysqlite2.dbapi2" = .ok .vnone :=
  ⟨(claim5_probe envAbsent "widget").1 rfl,
   (claim5_probe envPkgNoSub "pysqlite2.dbapi2").2.2.2.1 [] [] "dbapi2" [] rfl rfl rfl rfl⟩

/-- Every false result of `checkPythonModule` carries a `[FAILURE]` line. -/
theorem checkPythonModule_false_has_failure_line (env : Env) (module_name : String)
    (version_attribute_name minimum_version maximum_version : Option String)
    (is_required verbose_output : Bool) (ls : List String)
    (h : checkPythonModule env module_name version_attribute_name minimum_version
        is_required maximum_version verbose_output = .ok (false, ls)) :
    ∃ rest, "[FAILURE]\t" ++ rest ∈ ls := by
  unfold checkPythonModule at h
  simp only [Except.bind] at h
  iterate 12 (all_goals try split at h)
  all_goals try simp_all
  all_goals exact ⟨_, h ▸ List.mem_singleton_self _⟩

/-- A false result of `checkSQLite3` arises from exactly one of its three
failure conditions, each with its exact output: a falsy probed module prints
the `[FAILURE]` missing line, a falsy `sqlite_version` on a present module
returns false with no output at all, and a too-old version prints the
`[FAILURE]` too-old line. -/
theorem checkSQLite3_false_characterization (env : Env) (verbose_output : Bool)
    (ls : List String)
    (h : checkSQLite3 env verbose_output = .ok (false, ls)) :
    ∃ mo0 mo, importPythonModule env "pysqlite2.dbapi2" = .ok mo0
      ∧ importPythonModule env
          (if !pyTruthy mo0 then "sqlite3" else "pysqlite2.dbapi2") = .ok mo
      ∧ ((pyTruthy mo = false
            ∧ ls = [failureMissingLine
                (if !pyTruthy mo0 then "sqlite3" else "pysqlite2.dbapi2")])
        ∨ (pyTruthy mo = true ∧ pyTruthy (pyGetattr mo "sqlite_version") = false
            ∧ ls = [])
        ∨ (pyTruthy mo = true ∧ ∃ s mvm minm,
            pyGetattr mo "sqlite_version" = .vstr s ∧ s ≠ ""
            ∧ parseVersionList s = .ok mvm ∧ parseVersionList "3.7.8" = .ok minm
            ∧ pyListLt mvm minm = true
            ∧ ls = [tooOldLine
                (if !pyTruthy mo0 then "sqlite3" else "pysqlite2.dbapi2") s "3.7.8"])) := by
  unfold checkSQLite3 at h
  obtain ⟨r0, h0⟩ : ∃ r, importPythonModule env "pysqlite2.dbapi2" = r := ⟨_, rfl⟩
  rw [h0] at h
  cases r0 with
  | error e => simp [Except.bind] at h
  | ok mo0 =>
    simp only [Except.bind] at h
    obtain ⟨r1, h1⟩ : ∃ r, importPythonModule env
        (if !pyTruthy mo0 then "sqlite3" else "pysqlite2.dbapi2") = r := ⟨_, rfl⟩
    rw [h1] at h
    cases r1 with
    | error e => simp [Except.bind] at h
    | ok mo =>
      simp only [Except.bind] at h
      refine ⟨mo0, mo, h0, h1, ?_⟩
      by_cases hmot : pyTruthy mo = true
      · simp only [hmot, Bool.not_true] at h
        by_cases hvt : pyTruthy (pyGetattr mo "sqlite_version") = true
        · simp only [hvt, Bool.not_true] at h
          cases hg : pyGetattr mo "sqlite_version" with
          | vstr s =>
            rw [hg] at h hvt
            simp only [pyAsString, Except.bind, Bool.false_eq_true, if_false] at h
            cases hp : parseVersionList s with
            | error e => rw [hp] at h; simp [Except.bind] at h
            | ok mvm =>
              rw [hp] at h
              simp only [Except.bind] at h
              cases hq : parseVersionList "3.7.8" with
              | error e => rw [hq] at h; simp [Except.bind] at h
              | ok minm =>
                rw [hq] at h
                simp only [Except.bind] at h
                by_cases hlt : pyListLt mvm minm = true
                · simp only [hlt, if_true] at h
                  simp only [Except.ok.injEq, Prod.mk.injEq, true_and] at h
                  exact Or.inr (Or.inr ⟨hmot, s, mvm, minm, rfl, by simpa using hvt,
                    hp, rfl, hlt, h.symm⟩)
                · have hlt2 : pyListLt mvm minm = false := by simpa using hlt
                  simp only [hlt2, Bool.false_eq_true, if_false] at h
                  cases verbose_output <;> simp_all
          | vnone => rw [hg] at hvt; simp [pyTruthy] at hvt
          | vfun r =>
            rw [hg] at h
            simp [pyAsString, Except.bind] at h
          | vmod attrs =>
            rw [hg] at h
            simp [pyAsString, Except.bind] at h
        · have hvf : pyTruthy (pyGetattr mo "sqlite_version") = false := by simpa using hvt
          simp only [hvf, Bool.not_false, if_true, Bool.false_eq_true, if_false,
            Except.ok.injEq, Prod.mk.injEq, true_and] at h
          exact Or.inr (Or.inl ⟨hmot, hvf, h.symm⟩)
      · have hmof : pyTruthy mo = false := by simpa using hmot
        simp only [hmof, Bool.not_false, if_true, Except.ok.injEq, Prod.mk.injEq,
          true_and] at h
        exact Or.inl ⟨hmof, h.symm⟩

/-- On a present probed module whose `sqlite_version` attribute is falsy, the
database-engine probe returns false with no output, regardless of
verbosity. -/
theorem checkSQLite3_undetermined (env : Env) (verbose_output : Bool) (mo0 mo : PyVal)
    (h0 : importPythonModule env "pysqlite2.dbapi2" = .ok mo0)
    (h1 : importPythonModule env
        (if !pyTruthy mo0 then "sqlite3" else "pysqlite2.dbapi2") = .ok mo)
    (hmot : pyTruthy mo = true)
    (hvf : pyTruthy (pyGetattr mo "sqlite_version") = false) :
    checkSQLite3 env verbose_output = .ok (false, []) := by
  unfold checkSQLite3
  rw [h0]
  simp only [Except.bind]
  rw [h1]
  simp only [Except.bind]
  simp [hmot, hvf]

/-- An environment providing `sqlite3` as a module without a `sqlite_version`
attribute (and no `pysqlite2`). -/
def envSqliteBare : Env :=
  ⟨fun name =>
    if name = "sqlite3" then ImportResult.found [] else ImportResult.importError⟩

/-- Claim C6 counterexample: when `sqlite3` is importable but exposes no
truthy `sqlite_version`, the database-engine probe returns the failure
boolean with no printed line at all — a failure outcome without a `[FAILURE]`
message. -/
theorem claim6_counterexample :
    checkSQLite3 envSqliteBare true = .ok (false, []) := rfl

/-- Claim C6 (amended): whenever the per-module check returns false it emits
a `[FAILURE]` status line regardless of verbosity; a false result of the
database-engine probe arises from exactly one of its three failure
conditions, each with its exact output — a falsy probed module prints the
`[FAILURE]` missing line and a too-old version prints the `[FAILURE]`
too-old line, while the version-undeterminable condition (present module,
falsy `sqlite_version`), and only it, returns false silently with no output,
as the converse direction states. -/
theorem claim6_failure_printing :
    (∀ (env : Env) (module_name : String)
        (version_attribute_name minimum_version maximum_version : Option String)
        (is_required verbose_output : Bool) (ls : List String),
      checkPythonModule env module_name version_attribute_name minimum_version
          is_required maximum_version verbose_output = .ok (false, ls) →
      ∃ rest, "[FAILURE]\t" ++ rest ∈ ls)
  ∧ (∀ (env : Env) (verbose_output : Bool) (ls : List String),
      checkSQLite3 env verbose_output = .ok (false, ls) →
      ∃ mo0 mo, importPythonModule env "pysqlite2.dbapi2" = .ok mo0
        ∧ importPythonModule env
            (if !pyTruthy mo0 then "sqlite3" else "pysqlite2.dbapi2") = .ok mo
        ∧ ((pyTruthy mo = false
              ∧ ls = [failureMissingLine
                  (if !pyTruthy mo0 then "sqlite3" else "pysqlite2.dbapi2")])
          ∨ (pyTruthy mo = true ∧ pyTruthy (pyGetattr mo "sqlite_version") = false
              ∧ ls = [])
          ∨ (pyTruthy mo = true ∧ ∃ s mvm minm,
              pyGetattr mo "sqlite_version" = .vstr s ∧ s ≠ ""
              ∧ parseVersionList s = .ok mvm ∧ parseVersionList "3.7.8" = .ok minm
              ∧ pyListLt mvm minm = true
              ∧ ls = [tooOldLine
                  (if !pyTruthy mo0 then "sqlite3" else "pysqlite2.dbapi2") s "3.7.8"])))
  ∧ (∀ (env : Env) (verbose_output : Bool) (mo0 mo : PyVal),
      importPythonModule env "pysqlite2.dbapi2" = .ok mo0 →
      importPythonModule env
          (if !pyTruthy mo0 then "sqlite3" else "pysqlite2.dbapi2") = .ok mo →
      pyTruthy mo = true → pyTruthy (pyGetattr mo "sqlite_version") = false →
      checkSQLite3 env verbose_output = .ok (false, [])) :=
  ⟨fun env module_name version_attribute_name minimum_version maximum_version is_required
      verbose_output ls h =>
    checkPythonModule_false_has_failure_line env module_name version_attribute_name
      minimum_version maximum_version is_required verbose_output ls h,
   fun env verbose_output ls h =>
    checkSQLite3_false_characterization env verbose_output ls h,
   fun env verbose_output mo0 mo h0 h1 hmot hvf =>
    checkSQLite3_undetermined env verbose_output mo0 mo h0 h1 hmot hvf⟩

/-- Witness for C6: the missing required module `widget` fails with a
`[FAILURE]` line even with verbosity off; the probe's failure on the empty
environment is characterized with its `[FAILURE]` missing line; and the
probe on a `sqlite3` without `sqlite_version` returns false silently. -/
theorem claim6_witness :
    (∃ rest, "[FAILURE]\t" ++ rest ∈ [failureMissingLine "widget"])
  ∧ (∃ mo0 mo, importPythonModule envAbsent "pysqlite2.dbapi2" = .ok mo0
      ∧ importPythonModule envAbsent
          (if !pyTruthy mo0 then "sqlite3" else "pysqlite2.dbapi2") = .ok mo
      ∧ ((pyTruthy mo = false
            ∧ [failureMissingLine "sqlite3"] = [failureMissingLine
                (if !pyTruthy mo0 then "sqlite3" else "pysqlite2.dbapi2")])
        ∨ (pyTruthy mo = true ∧ pyTruthy (pyGetattr mo "sqlite_version") = false
            ∧ [failureMissingLine "sqlite3"] = [])
        ∨ (pyTruthy mo = true ∧ ∃ s mvm minm,
            pyGetattr mo "sqlite_version" = .vstr s ∧ s ≠ ""
            ∧ parseVersionList s = .ok mvm ∧ parseVersionList "3.7.8" = .ok minm
            ∧ pyListLt mvm minm = true
            ∧ [failureMissingLine "sqlite3"] = [tooOldLine
                (if !pyTruthy mo0 then "sqlite3" else "pysqlite2.dbapi2") s "3.7.8"])))
  ∧ checkSQLite3 envSqliteBare true = .ok (false, []) :=
  ⟨claim6_failure_printing.1 envAbsent "widget" (some "__version__") (some "1.2.0") none
    true false [failureMissingLine "widget"] rfl,
   claim6_failure_printing.2.1 envAbsent true [failureMissingLine "sqlite3"] rfl,
   claim6_failure_printing.2.2 envSqliteBare true PyVal.vnone (PyVal.vmod []) rfl rfl
     rfl rfl⟩

/-- A success of the per-module check with verbosity off is exactly one of:
the optional-missing case (falsy probed module, not required), which prints
precisely its `[OPTIONAL]` line, or a present (truthy) module, which prints
nothing. -/
theorem checkPythonModule_quiet_success (env : Env) (module_name : String)
    (version_attribute_name minimum_version maximum_version : Option String)
    (is_required : Bool) (ls : List String)
    (h : checkPythonModule env module_name version_attribute_name minimum_version
        is_required maximum_version false = .ok (true, ls)) :
    ∃ mo, importPythonModule env module_name = .ok mo
      ∧ ((pyTruthy mo = false ∧ is_required = false
            ∧ ls = [optionalMissingLine module_name])
        ∨ (pyTruthy mo = true ∧ ls = [])) := by
  unfold checkPythonModule at h
  obtain ⟨r0, h0⟩ : ∃ r, importPythonModule env module_name = r := ⟨_, rfl⟩
  rw [h0] at h
  cases r0 with
  | error e => simp [Except.bind] at h
  | ok mo =>
    simp only [Except.bind] at h
    refine ⟨mo, h0, ?_⟩
    by_cases hmot : pyTruthy mo = true
    · refine Or.inr ⟨hmot, ?_⟩
      simp only [hmot, Bool.not_true, Bool.false_eq_true, if_false] at h
      iterate 12 (all_goals try split at h)
      all_goals simp_all
    · have hmof : pyTruthy mo = false := by simpa using hmot
      simp only [hmof, Bool.not_false, if_true] at h
      cases is_required with
      | true => simp at h
      | false =>
        simp only [Bool.not_false, if_true, Except.ok.injEq, Prod.mk.injEq,
          true_and] at h
        exact Or.inl ⟨hmof, rfl, h.symm⟩

/-- With verbosity off, a fully successful run ends with the compact `[OK]`
summary line followed by the final blank line. -/
theorem checkDependencies_quiet_ok (env : Env)
    (pythonDependencies : List (String × VersionTuple)) (b : Bool) (ls : List String)
    (h : checkDependencies env pythonDependencies false = .ok (b, ls)) (hb : b = true) :
    ∃ pre, ls = pre ++ ["[OK]", ""] := by
  subst hb
  unfold checkDependencies at h
  cases hrun : runChecks env false (sortByName pythonDependencies) with
  | error e => rw [hrun] at h; simp [Except.bind] at h
  | ok p =>
    cases hsql : checkSQLite3 env false with
    | error e => rw [hrun, hsql] at h; simp [Except.bind] at h
    | ok q =>
      rw [hrun, hsql] at h
      simp only [Except.bind, Except.ok.injEq, Prod.mk.injEq] at h
      obtain ⟨hb1, hls⟩ := h
      refine ⟨"Checking availability and versions of dependencies." :: (p.2 ++ q.2), ?_⟩
      rw [← hls]
      simp [tailLines, hb1, List.append_assoc]

/-- Claim C7 counterexample: with verbosity off, a check that succeeds
because an optional module is missing still prints its `[OPTIONAL]` line, so
success is not always silent when not verbose. -/
theorem claim7_counterexample :
    checkPythonModule envAbsent "widget" (some "__version__") (some "1.2.0") false none false
        = .ok (true, [optionalMissingLine "widget"])
  ∧ ([optionalMissingLine "widget"] : List String) ≠ [] := ⟨rfl, by simp⟩

/-- Claim C7 (amended): with verbosity off a successful per-module check
emits no line except in exactly one case — the optional-missing success
(falsy probed module, not required), which emits precisely its `[OPTIONAL]`
line; conversely the optional-missing success always prints that line, at
every verbosity setting; and when everything passed with verbosity off, the
run ends with the compact final `[OK]` summary line (before the trailing
blank line) in place of per-module OK lines. -/
theorem claim7_quiet_success :
    (∀ (env : Env) (module_name : String)
        (version_attribute_name minimum_version maximum_version : Option String)
        (is_required : Bool) (ls : List String),
      checkPythonModule env module_name version_attribute_name minimum_version
          is_required maximum_version false = .ok (true, ls) →
      ∃ mo, importPythonModule env module_name = .ok mo
        ∧ ((pyTruthy mo = false ∧ is_required = false
              ∧ ls = [optionalMissingLine module_name])
          ∨ (pyTruthy mo = true ∧ ls = [])))
  ∧ (∀ (env : Env) (module_name : String)
        (version_attribute_name minimum_version maximum_version : Option String)
        (verbose_output : Bool) (mo : PyVal),
      importPythonModule env module_name = .ok mo → pyTruthy mo = false →
      checkPythonModule env module_name version_attribute_name minimum_version false
          maximum_version verbose_output = .ok (true, [optionalMissingLine module_name]))
  ∧ (∀ (env : Env) (pythonDependencies : List (String × VersionTuple)) (b : Bool)
        (ls : List String),
      checkDependencies env pythonDependencies false = .ok (b, ls) → b = true →
      ∃ pre, ls = pre ++ ["[OK]", ""]) :=
  ⟨fun env module_name version_attribute_name minimum_version maximum_version is_required
      ls h =>
    checkPythonModule_quiet_success env module_name version_attribute_name minimum_version
      maximum_version is_required ls h,
   fun env module_name version_attribute_name minimum_version maximum_version
      verbose_output mo hmo hmof => by
    have hmiss := checkPythonModule_missing env module_name version_attribute_name
      minimum_version maximum_version false verbose_output mo hmo hmof
    simpa using hmiss,
   fun env pythonDependencies b ls h hb =>
    checkDependencies_quiet_ok env pythonDependencies b ls h hb⟩

/-- An environment providing a good `sqlite3` and nothing else. -/
def envSqliteOnly : Env :=
  ⟨fun name =>
    if name = "sqlite3" then ImportResult.found [("sqlite_version", PyVal.vstr "3.8.0")]
    else ImportResult.importError⟩

/-- Witness for C7: a quiet successful check on a present module is
characterized (and emits nothing), the optional-missing success prints its
`[OPTIONAL]` line even with verbosity on, and a quiet fully successful run
ends with the `[OK]` summary. -/
theorem claim7_witness :
    (∃ mo, importPythonModule (envWidget "1.2.0") "widget" = .ok mo
      ∧ ((pyTruthy mo = false ∧ true = false
            ∧ ([] : List String) = [optionalMissingLine "widget"])
        ∨ (pyTruthy mo = true ∧ ([] : List String) = [])))
  ∧ checkPythonModule envAbsent "widget" (some "__version__") (some "1.2.0") false none
      true = .ok (true, [optionalMissingLine "widget"])
  ∧ ∃ pre, ["Checking availability and versions of dependencies.", "[OK]", ""]
      = pre ++ ["[OK]", ""] :=
  ⟨claim7_quiet_success.1 (envWidget "1.2.0") "widget" (some "__version__") (some "1.2.0")
      none true [] rfl,
   claim7_quiet_success.2.1 envAbsent "widget" (some "__version__") (some "1.2.0") none
      true PyVal.vnone rfl rfl,
   claim7_quiet_success.2.2 envSqliteOnly [] true
      ["Checking availability and versions of dependencies.", "[OK]", ""] rfl rfl⟩

/-- Inserting an entry permutes consing it. -/
theorem insertByName_perm (p : String × VersionTuple) :
    ∀ l : List (String × VersionTuple), (insertByName p l).Perm (p :: l) := by
  intro l
  induction l with
  | nil => exact List.Perm.refl _
  | cons q qs ih =>
    unfold insertByName
    by_cases hle : p.1 ≤ q.1
    · simp only [hle, if_true]
      exact List.Perm.refl _
    · simp only [hle, if_false]
      exact (ih.cons q).trans (List.Perm.swap p q qs)

/-- The name-sorted dependency list is a permutation of the input. -/
theorem sortByName_perm : ∀ l : List (String × VersionTuple), (sortByName l).Perm l := by
  intro l
  induction l with
  | nil => exact List.Perm.refl _
  | cons p ps ih => exact (insertByName_perm p (sortByName ps)).trans (ih.cons p)

/-- Insertion preserves sortedness by module name. -/
theorem insertByName_sorted (p : String × VersionTuple) :
    ∀ l : List (String × VersionTuple),
      l.Pairwise (fun a b => a.1 ≤ b.1) →
      (insertByName p l).Pairwise (fun a b => a.1 ≤ b.1) := by
  intro l
  induction l with
  | nil => intro _; exact List.pairwise_singleton _ _
  | cons q qs ih =>
    intro h
    rw [List.pairwise_cons] at h
    obtain ⟨hq, hqs⟩ := h
    unfold insertByName
    by_cases hle : p.1 ≤ q.1
    · simp only [hle, if_true]
      rw [List.pairwise_cons]
      refine ⟨?_, List.pairwise_cons.mpr ⟨hq, hqs⟩⟩
      intro x hx
      rcases List.mem_cons.mp hx with hx | hx
      · subst hx
        exact hle
      · exact le_trans hle (hq x hx)
    · simp only [hle, if_false]
      rw [List.pairwise_cons]
      refine ⟨?_, ih hqs⟩
      intro x hx
      have hx2 : x ∈ p :: qs := (insertByName_perm p qs).mem_iff.mp hx
      rcases List.mem_cons.mp hx2 with hx3 | hx3
      · subst hx3
        exact le_of_not_le hle
      · exact hq x hx3

/-- The dependency list is sorted by module name after `sortByName`. -/
theorem sortByName_sorted :
    ∀ l : List (String × VersionTuple),
      (sortByName l).Pairwise (fun a b => a.1 ≤ b.1) := by
  intro l
  induction l with
  | nil => exact List.Pairwise.nil
  | cons p ps ih => exact insertByName_sorted p (sortByName ps) ih

/-- The per-requirement loop returns false exactly when some entry's check
returned false (conjunction, no early exit). -/
theorem runChecks_false_iff (env : Env) (verbose_output : Bool) :
    ∀ (l : List (String × VersionTuple)) (b : Bool) (ls : List String),
      runChecks env verbose_output l = .ok (b, ls) →
      (b = false ↔ ∃ p ∈ l, ∃ ls2,
        checkPythonModule env p.1 p.2.version_attribute_name p.2.minimum_version
          p.2.is_required p.2.maximum_version verbose_output = .ok (false, ls2)) := by
  intro l
  induction l with
  | nil =>
    intro b ls h
    unfold runChecks at h
    simp only [Except.ok.injEq, Prod.mk.injEq] at h
    obtain ⟨hb, _⟩ := h
    subst hb
    simp
  | cons p rest ih =>
    intro b ls h
    obtain ⟨module_name, vt⟩ := p
    unfold runChecks at h
    cases hc : checkPythonModule env module_name vt.version_attribute_name
        vt.minimum_version vt.is_required vt.maximum_version verbose_output with
    | error e => rw [hc] at h; simp [Except.bind] at h
    | ok res =>
      rw [hc] at h
      simp only [Except.bind] at h
      cases hr : runChecks env verbose_output rest with
      | error e => rw [hr] at h; simp at h
      | ok restRes =>
        rw [hr] at h
        simp only [Except.ok.injEq, Prod.mk.injEq] at h
        obtain ⟨hb, _⟩ := h
        subst hb
        constructor
        · intro hfalse
          rcases Bool.and_eq_false_iff.mp hfalse with h1 | h1
          · exact ⟨(module_name, vt), List.mem_cons_self _ _,
              res.2, by rw [hc, ← h1]⟩
          · obtain ⟨q, hq, ls2, hq2⟩ := (ih restRes.1 restRes.2 (by rw [hr])).mp h1
            exact ⟨q, List.mem_cons_of_mem _ hq, ls2, hq2⟩
        · rintro ⟨q, hq, ls2, hq2⟩
          rcases List.mem_cons.mp hq with hq | hq
          · subst hq
            rw [hc] at hq2
            have hres : res = (false, ls2) := by simpa using hq2
            rw [hres]
            simp
          · have h1 := (ih restRes.1 restRes.2 (by rw [hr])).mpr
              ⟨q, hq, ls2, hq2⟩
            rw [h1]
            simp

/-- Claim C8: the aggregator checks the requirements in order sorted by
module name (a sorted permutation of the declared table), runs the
database-engine probe exactly once after them (its outcome and output appear
exactly once in the composition), and returns false iff at least one
per-requirement check or the database-engine probe returned false; the fold
is a logical conjunction with no early exit. -/
theorem claim8_aggregator :
    (∀ pythonDependencies : List (String × VersionTuple),
        (sortByName pythonDependencies).Pairwise (fun p q => p.1 ≤ q.1)
      ∧ (sortByName pythonDependencies).Perm pythonDependencies)
  ∧ (∀ (env : Env) (verbose_output : Bool)
        (pythonDependencies : List (String × VersionTuple)) (b1 b2 : Bool)
        (l1 l2 : List String),
      runChecks env verbose_output (sortByName pythonDependencies) = .ok (b1, l1) →
      checkSQLite3 env verbose_output = .ok (b2, l2) →
      checkDependencies env pythonDependencies verbose_output = .ok (b1 && b2,
        "Checking availability and versions of dependencies."
          :: (l1 ++ l2 ++ tailLines (b1 && b2) verbose_output)))
  ∧ (∀ (env : Env) (verbose_output : Bool)
        (pythonDependencies : List (String × VersionTuple)) (b : Bool) (ls : List String),
      checkDependencies env pythonDependencies verbose_output = .ok (b, ls) →
      (b = false ↔
        (∃ p ∈ pythonDependencies, ∃ ls2,
          checkPythonModule env p.1 p.2.version_attribute_name p.2.minimum_version
            p.2.is_required p.2.maximum_version verbose_output = .ok (false, ls2))
        ∨ (∃ ls3, checkSQLite3 env verbose_output = .ok (false, ls3)))) := by
  refine ⟨fun deps => ⟨sortByName_sorted deps, sortByName_perm deps⟩, ?_, ?_⟩
  · intro env v deps b1 b2 l1 l2 hrun hsql
    unfold checkDependencies
    rw [hrun, hsql]
    simp [Except.bind]
  · intro env v deps b ls h
    unfold checkDependencies at h
    cases hrun : runChecks env v (sortByName deps) with
    | error e => rw [hrun] at h; simp [Except.bind] at h
    | ok p =>
      cases hsql : checkSQLite3 env v with
      | error e => rw [hrun, hsql] at h; simp [Except.bind] at h
      | ok q =>
        rw [hrun, hsql] at h
        simp only [Except.bind, Except.ok.injEq, Prod.mk.injEq] at h
        obtain ⟨hb, hls⟩ := h
        rw [← hb, Bool.and_eq_false_iff]
        constructor
        · rintro (h1 | h1)
          · obtain ⟨x, hx, ls2, hx2⟩ :=
              (runChecks_false_iff env v (sortByName deps) p.1 p.2 (by rw [hrun])).mp h1
            exact Or.inl ⟨x, (sortByName_perm deps).mem_iff.mp hx, ls2, hx2⟩
          · refine Or.inr ⟨q.2, ?_⟩
            have hq : q = (false, q.2) := by
              obtain ⟨qa, qb⟩ := q
              simp only at h1
              subst h1
              rfl
            exact congrArg Except.ok hq
        · rintro (⟨x, hx, ls2, hx2⟩ | ⟨ls3, h3⟩)
          · exact Or.inl ((runChecks_false_iff env v (sortByName deps) p.1 p.2
              (by rw [hrun])).mpr ⟨x, (sortByName_perm deps).mem_iff.mpr hx, ls2, hx2⟩)
          · injection h3 with h4
            rw [h4]
            exact Or.inr rfl

/-- Witness for C8 at a concrete one-requirement table in the empty
environment: both the requirement check and the probe fail, and the
aggregator composes their lines around the header and tail. -/
theorem claim8_witness :
    checkDependencies envAbsent
        [("widget", ⟨some "__version__", some "1.2.0", none, true⟩)] true =
      .ok (false && false,
        "Checking availability and versions of dependencies."
          :: ([failureMissingLine "widget"] ++ [failureMissingLine "sqlite3"]
              ++ tailLines (false && false) true)) :=
  claim8_aggregator.2.1 envAbsent true
    [("widget", ⟨some "__version__", some "1.2.0", none, true⟩)] false false
    [failureMissingLine "widget"] [failureMissingLine "sqlite3"] rfl rfl

/-- Claim C9: if the first candidate `pysqlite2.dbapi2` is present (truthy),
the outcome of the database-engine probe is the same in any two environments
that agree on `pysqlite2.dbapi2` — in particular it does not depend on
whether `sqlite3` is available or on its version, since `sqlite3` is never
probed. -/
theorem claim9_short_circuit (env1 env2 : Env) (verbose_output : Bool) (mo : PyVal)
    (hagree : env1.topImport "pysqlite2.dbapi2" = env2.topImport "pysqlite2.dbapi2")
    (h1 : importPythonModule env1 "pysqlite2.dbapi2" = .ok mo)
    (ht : pyTruthy mo = true) :
    checkSQLite3 env1 verbose_output = checkSQLite3 env2 verbose_output := by
  have himp : importPythonModule env2 "pysqlite2.dbapi2"
      = importPythonModule env1 "pysqlite2.dbapi2" := by
    unfold importPythonModule
    rw [hagree]
  unfold checkSQLite3
  simp [himp, h1, Except.bind, ht]

/-- An environment with a good `pysqlite2.dbapi2` and no `sqlite3`. -/
def envP1 : Env :=
  ⟨fun name =>
    if name = "pysqlite2.dbapi2" then
      ImportResult.found [("dbapi2", PyVal.vmod [("sqlite_version", PyVal.vstr "3.8.0")])]
    else ImportResult.importError⟩

/-- The same `pysqlite2.dbapi2` as `envP1`, together with a `sqlite3` whose
version is far too old. -/
def envP2 : Env :=
  ⟨fun name =>
    if name = "pysqlite2.dbapi2" then
      ImportResult.found [("dbapi2", PyVal.vmod [("sqlite_version", PyVal.vstr "3.8.0")])]
    else if name = "sqlite3" then
      ImportResult.found [("sqlite_version", PyVal.vstr "1.0")]
    else ImportResult.importError⟩

/-- Witness for C9: adding a too-old `sqlite3` to an environment whose
`pysqlite2.dbapi2` is good does not change the probe result. -/
theorem claim9_witness : checkSQLite3 envP1 true = checkSQLite3 envP2 true :=
  claim9_short_circuit envP1 envP2 true
    (PyVal.vmod [("sqlite_version", PyVal.vstr "3.8.0")]) rfl rfl rfl

/-- The boolean result of the per-module check does not depend on the
verbosity flag. -/
theorem checkPythonModule_fst (env : Env) (module_name : String)
    (version_attribute_name minimum_version maximum_version : Option String)
    (is_required : Bool) :
    (checkPythonModule env module_name version_attribute_name minimum_version is_required
        maximum_version true).map Prod.fst =
    (checkPythonModule env module_name version_attribute_name minimum_version is_required
        maximum_version false).map Prod.fst := by
  unfold checkPythonModule
  cases himp : importPythonModule env module_name with
  | error e => simp [Except.bind, Except.map]
  | ok mo =>
    simp only [Except.bind]
    split
    · split <;> rfl
    · split
      · rfl
      · cases hex : extractModuleVersion mo (version_attribute_name.getD "") with
        | error e => simp [Except.bind, Except.map]
        | ok v =>
          simp only [Except.bind]
          split
          · rfl
          · cases hp : parseVersionList (pyStr v) with
            | error e => simp [Except.bind, Except.map]
            | ok mvm =>
              simp only [Except.bind]
              cases hq : parseVersionList (minimum_version.getD "") with
              | error e => simp [Except.bind, Except.map]
              | ok minm =>
                simp only [Except.bind]
                split
                · rfl
                · split
                  · cases hm : parseVersionList (maximum_version.getD "") with
                    | error e => simp [Except.bind, Except.map]
                    | ok maxm =>
                      simp only [Except.bind]
                      split <;> rfl
                  · rfl

/-- The boolean result of the database-engine probe does not depend on the
verbosity flag. -/
theorem checkSQLite3_fst (env : Env) :
    (checkSQLite3 env true).map Prod.fst = (checkSQLite3 env false).map Prod.fst := by
  unfold checkSQLite3
  cases himp : importPythonModule env "pysqlite2.dbapi2" with
  | error e => simp [Except.bind, Except.map]
  | ok mo0 =>
    simp only [Except.bind]
    cases himp2 : importPythonModule env
        (if !pyTruthy mo0 then "sqlite3" else "pysqlite2.dbapi2") with
    | error e => simp [Except.bind, Except.map]
    | ok mo =>
      simp only [Except.bind]
      split
      · rfl
      · split
        · rfl
        · cases hs : pyAsString (pyGetattr mo "sqlite_version") with
          | error e => simp [Except.bind, Except.map]
          | ok s =>
            simp only [Except.bind]
            cases hp : parseVersionList s with
            | error e => simp [Except.bind, Except.map]
            | ok mvm =>
              simp only [Except.bind]
              cases hq : parseVersionList "3.7.8" with
              | error e => simp [Except.bind, Except.map]
              | ok minm =>
                simp only [Except.bind]
                split <;> rfl

/-- Two computations with equal boolean projections are either the same error
or successes with the same boolean. -/
theorem except_map_fst_cases (x y : Except PyExc (Bool × List String))
    (h : x.map Prod.fst = y.map Prod.fst) :
    (∃ e, x = .error e ∧ y = .error e)
  ∨ (∃ b lx ly, x = .ok (b, lx) ∧ y = .ok (b, ly)) := by
  cases x with
  | error e =>
    cases y with
    | error e2 =>
      simp only [Except.map, Except.error.injEq] at h
      exact Or.inl ⟨e, rfl, by rw [h]⟩
    | ok q => simp [Except.map] at h
  | ok p =>
    cases y with
    | error e2 => simp [Except.map] at h
    | ok q =>
      simp only [Except.map, Except.ok.injEq] at h
      refine Or.inr ⟨p.1, p.2, q.2, ?_, ?_⟩
      · obtain ⟨pa, pb⟩ := p
        rfl
      · obtain ⟨qa, qb⟩ := q
        obtain ⟨pa, pb⟩ := p
        simp only at h ⊢
        rw [h]

/-- The boolean result of the per-requirement loop does not depend on the
verbosity flag. -/
theorem runChecks_fst (env : Env) :
    ∀ l : List (String × VersionTuple),
      (runChecks env true l).map Prod.fst = (runChecks env false l).map Prod.fst := by
  intro l
  induction l with
  | nil => rfl
  | cons p rest ih =>
    obtain ⟨module_name, vt⟩ := p
    unfold runChecks
    rcases except_map_fst_cases _ _ (checkPythonModule_fst env module_name
        vt.version_attribute_name vt.minimum_version vt.maximum_version vt.is_required) with
      ⟨e, hx, hy⟩ | ⟨b, lx, ly, hx, hy⟩
    · simp [hx, hy, Except.bind, Except.map]
    · rcases except_map_fst_cases _ _ ih with ⟨e2, hx2, hy2⟩ | ⟨b2, lx2, ly2, hx2, hy2⟩
      · simp [hx, hy, hx2, hy2, Except.bind, Except.map]
      · simp [hx, hy, hx2, hy2, Except.bind, Except.map]

/-- The boolean result of the whole dependency check does not depend on the
verbosity flag. -/
theorem checkDependencies_fst (env : Env)
    (pythonDependencies : List (String × VersionTuple)) :
    (checkDependencies env pythonDependencies true).map Prod.fst =
    (checkDependencies env pythonDependencies false).map Prod.fst := by
  unfold checkDependencies
  rcases except_map_fst_cases _ _ (runChecks_fst env (sortByName pythonDependencies)) with
    ⟨e, hx, hy⟩ | ⟨b, lx, ly, hx, hy⟩
  · simp [hx, hy, Except.bind, Except.map]
  · rcases except_map_fst_cases _ _ (checkSQLite3_fst env) with
      ⟨e2, hx2, hy2⟩ | ⟨b2, lx2, ly2, hx2, hy2⟩
    · simp [hx, hy, hx2, hy2, Except.bind, Except.map]
    · simp [hx, hy, hx2, hy2, Except.bind, Except.map, tailLines]

/-- Claim C10: the boolean returned by each per-module check, by the
database-engine probe, and by the whole run is independent of the
verbose-output flag (and so is the raised exception, if any): verbosity
affects only which lines are printed. -/
theorem claim10_verbose_independent :
    (∀ (env : Env) (module_name : String)
        (version_attribute_name minimum_version maximum_version : Option String)
        (is_required : Bool),
      (checkPythonModule env module_name version_attribute_name minimum_version is_required
          maximum_version true).map Prod.fst =
      (checkPythonModule env module_name version_attribute_name minimum_version is_required
          maximum_version false).map Prod.fst)
  ∧ (∀ env : Env,
      (checkSQLite3 env true).map Prod.fst = (checkSQLite3 env false).map Prod.fst)
  ∧ (∀ (env : Env) (pythonDependencies : List (String × VersionTuple)),
      (checkDependencies env pythonDependencies true).map Prod.fst =
      (checkDependencies env pythonDependencies false).map Prod.fst) :=
  ⟨fun env module_name version_attribute_name minimum_version maximum_version is_required =>
    checkPythonModule_fst env module_name version_attribute_name minimum_version
      maximum_version is_required,
   fun env => checkSQLite3_fst env,
   fun env pythonDependencies => checkDependencies_fst env pythonDependencies⟩
